import Mathlib

/-!
Verification of the IntentionalBrowsing decision engine.

This file shallowly embeds `src/shared/rules.ts` (pattern matcher, platform
resolver, decision engine, redirect builder) and the static rule tables of
`src/shared/config.ts`, and proves the spec's claims about them.

Conventions of the embedding:
- TypeScript strings are Lean `String`s; character-level operations are done
  on `List Char` (`String.toList`).
- JavaScript `try { new URL(u) } catch { ... }` becomes an `Option`-returning
  parser `parseUrl`; `none` corresponds to the constructor throwing.
- `Record<PlatformId, _>` becomes a function out of the closed `PlatformId`
  enumeration; `Object.entries` iteration order is the literal's insertion
  order, captured by `PLATFORM_LIST`.
- A TS object used as a string-keyed map (`hardBlocks`) becomes an
  association list; `obj[k] === false` becomes `lookup k = some false`.
-/

/-- `BlockMode` from `src/shared/types.ts`. -/
inductive BlockMode
  | allow
  | soft
  | hard
deriving DecidableEq, Repr

/-- `UrlPattern` from `src/shared/types.ts`: a path pattern with a mode, an
optional redirect token and an optional description. -/
structure UrlPattern where
  pattern : String
  mode : BlockMode
  redirect : Option String
  description : Option String
deriving DecidableEq, Repr

/-- `PlatformRules` from `src/shared/types.ts`. -/
structure PlatformRules where
  hosts : List String
  patterns : List UrlPattern
  defaultRedirect : String
deriving DecidableEq, Repr

/-- `PlatformId` from `src/shared/types.ts`: closed enumeration of the seven
supported platforms. -/
inductive PlatformId
  | twitter
  | reddit
  | youtube
  | instagram
  | facebook
  | linkedin
  | tiktok
deriving DecidableEq, Repr, Fintype

/-- The identifier string of a platform (the TS string-union value), used in
diagnostic messages such as `` `${platformId} is disabled` ``. -/
def PlatformId.idString : PlatformId → String
  | .twitter => "twitter"
  | .reddit => "reddit"
  | .youtube => "youtube"
  | .instagram => "instagram"
  | .facebook => "facebook"
  | .linkedin => "linkedin"
  | .tiktok => "tiktok"

/-- `PlatformConfig` from `src/shared/types.ts`. `hardBlocks` and `softBlocks`
are string-keyed boolean maps, embedded as association lists.
(`customSettings` is not read by the decision engine and is omitted.) -/
structure PlatformConfig where
  enabled : Bool
  hardBlocks : List (String × Bool)
  softBlocks : List (String × Bool)
  redirectTarget : String
deriving DecidableEq, Repr

/-- `StorageSchema` from `src/shared/types.ts`, restricted to the fields the
decision engine reads (`stats` is never consulted by `rules.ts`). -/
structure StorageSchema where
  schemaVersion : Nat
  globalEnabled : Bool
  platforms : PlatformId → PlatformConfig

/-- `BlockDecision` from `src/shared/types.ts`. -/
structure BlockDecision where
  shouldBlock : Bool
  mode : BlockMode
  redirectUrl : Option String
  reason : Option String
deriving DecidableEq, Repr

/-! ## JavaScript string primitives

The source manipulates JS strings with `toLowerCase`, `startsWith`,
`endsWith` and `split`. These are modelled at the character-list level
(all hostnames and paths involved are ASCII, where JS `toLowerCase` is
per-character ASCII lowercasing). -/

/-- JS `s.toLowerCase()` (ASCII). -/
def jsToLower (s : String) : String :=
  (s.toList.map Char.toLower).asString

/-- JS `s.startsWith(pre)`. -/
def jsStartsWith (s pre : String) : Bool :=
  pre.toList.isPrefixOf s.toList

/-- JS `s.endsWith(suf)`. -/
def jsEndsWith (s suf : String) : Bool :=
  suf.toList.isSuffixOf s.toList

/-- Chunk accumulator for `jsSplit`. The `fuel` argument only makes the
recursion structural; every step consumes at least one character when `sep`
is nonempty, so `fuel = input length + 1` is never exhausted. -/
def jsSplitAux (sep : List Char) : Nat → List Char → List Char → List (List Char)
  | 0, _, acc => [acc.reverse]
  | _ + 1, [], acc => [acc.reverse]
  | fuel + 1, c :: rest, acc =>
    if sep.isPrefixOf (c :: rest) then
      acc.reverse :: jsSplitAux sep fuel (rest.drop (sep.length - 1)) []
    else jsSplitAux sep fuel rest (c :: acc)

/-- JS `s.split(sep)` for a nonempty separator string. -/
def jsSplit (s sep : String) : List String :=
  (jsSplitAux sep.toList (s.toList.length + 1) s.toList []).map List.asString

/-! ## Pattern matcher (`matchPattern` / `matchSegments` in `rules.ts`) -/

/-- `s.split('?')[0]`: the characters before the first `'?'`. -/
def stripQuery (cs : List Char) : List Char :=
  cs.takeWhile (fun c => c != '?')

/-- `s.replace(/\/+$/, '')`: drop every trailing `'/'`. -/
def dropTrailingSlashes (cs : List Char) : List Char :=
  (cs.reverse.dropWhile (fun c => c == '/')).reverse

/-- `path.split('?')[0].replace(/\/+$/, '') || '/'` from `matchPattern`. -/
def normalizePathChars (cs : List Char) : List Char :=
  let t := dropTrailingSlashes (stripQuery cs)
  if t.isEmpty then ['/'] else t

/-- `pattern.replace(/\/+$/, '') || '/'` from `matchPattern`. -/
def normalizePatternChars (cs : List Char) : List Char :=
  let t := dropTrailingSlashes cs
  if t.isEmpty then ['/'] else t

/-- JavaScript `String.prototype.split('/')`: the list of (possibly empty)
chunks between `'/'` characters. -/
def splitSlash (cs : List Char) : List (List Char) :=
  cs.foldr
    (fun c acc =>
      if c = '/' then [] :: acc
      else
        match acc with
        | [] => [[c]]
        | s :: ss => (c :: s) :: ss)
    [[]]

/-- `segs.split('/').filter(s => s !== '')` applied to a normalized char list. -/
def segsOf (cs : List Char) : List String :=
  ((splitSlash cs).filter (fun l => l ≠ [])).map List.asString

/-- The pattern-side segment list computed inside `matchPattern`. -/
def patternSegments (pattern : String) : List String :=
  segsOf (normalizePatternChars pattern.toList)

/-- The path-side segment list computed inside `matchPattern`. -/
def pathSegments (path : String) : List String :=
  segsOf (normalizePathChars path.toList)

/-- `matchSegments` from `rules.ts`: the iterative scan with `**`
backtracking, written as the equivalent recursion on the pattern list.
The `for (let i = si; i <= path.length; i++)` backtracking loop becomes
`(List.range (path.length + 1)).any`. -/
def matchSegments : List String → List String → Bool
  | [], path => path.isEmpty
  | p :: ps, path =>
    if p = "**" then
      -- If this is the last pattern segment, it matches everything remaining
      if ps.isEmpty then true
      else (List.range (path.length + 1)).any (fun i => matchSegments ps (path.drop i))
    else
      match path with
      | [] => false
      | s :: rest =>
        if p = "*" then matchSegments ps rest
        else if p = s then matchSegments ps rest
        else false

/-- `matchPattern` from `rules.ts`. -/
def matchPattern (pattern path : String) : Bool :=
  let pathSegs := pathSegments path
  let patternSegs := patternSegments pattern
  -- Handle root path special case
  if patternSegs.isEmpty && pathSegs.isEmpty then true
  else matchSegments patternSegs pathSegs

/-! ## URL parsing

`rules.ts` calls the WHATWG `new URL(url)` constructor inside `try`/`catch`
and reads `hostname`, `pathname` and `origin`. `parseUrl` models that
constructor for the absolute `scheme://...` URLs this extension handles:
`none` corresponds to the constructor throwing a `TypeError`. -/

structure ParsedUrl where
  scheme : String
  hostname : String
  port : String
  pathname : String
  search : String
deriving DecidableEq, Repr

/-- `url.origin` for a parsed URL. -/
def ParsedUrl.origin (u : ParsedUrl) : String :=
  u.scheme ++ "://" ++ u.hostname ++ (if u.port = "" then "" else ":" ++ u.port)

/-- Split `scheme://rest` at the first colon, requiring the `//`. -/
def splitSchemeAux : List Char → Option (List Char × List Char)
  | [] => none
  | c :: rest =>
    if c = ':' then
      match rest with
      | '/' :: '/' :: r => some ([], r)
      | _ => none
    else
      match splitSchemeAux rest with
      | some (sch, r) => some (c :: sch, r)
      | none => none

def isSchemeChar (c : Char) : Bool :=
  c.isAlpha || c.isDigit || c = '+' || c = '-' || c = '.'

/-- Model of `new URL(s)` for absolute URLs (the authority-based schemes this
extension ever sees): scheme, then `//`, then authority (userinfo stripped,
host lowercased, optional port), then path, query and fragment. Returns
`none` where the constructor would throw. -/
def parseUrl (s : String) : Option ParsedUrl :=
  match splitSchemeAux s.toList with
  | none => none
  | some (sch, rest) =>
    if sch.isEmpty || !(sch.headD 'a').isAlpha || !sch.all isSchemeChar then none
    else
      let auth := rest.takeWhile (fun c => !(c = '/' || c = '?' || c = '#'))
      let after := rest.drop auth.length
      let hostport := (auth.reverse.takeWhile (fun c => c ≠ '@')).reverse
      let host := hostport.takeWhile (fun c => c ≠ ':')
      let port := (hostport.drop host.length).drop 1
      if host.isEmpty then none
      else
        let pathname :=
          match after with
          | '/' :: _ => after.takeWhile (fun c => !(c = '?' || c = '#'))
          | _ => ['/']
        let afterPath := after.dropWhile (fun c => !(c = '?' || c = '#'))
        let search :=
          match afterPath with
          | '?' :: _ =>
            let q := afterPath.takeWhile (fun c => c ≠ '#')
            if q = ['?'] then [] else q
          | _ => []
        some ⟨(sch.map Char.toLower).asString, (host.map Char.toLower).asString,
              port.asString, pathname.asString, search.asString⟩

/-! ## Static rule tables (`src/shared/config.ts`) -/

/-- `TWITTER_RULES` from `config.ts`. -/
def TWITTER_RULES : PlatformRules :=
  ⟨["twitter.com", "x.com", "www.twitter.com", "www.x.com", "mobile.twitter.com", "mobile.x.com"],
   [⟨"/", .hard, some "blocked", some "Home feed"⟩,
    ⟨"/home", .hard, some "blocked", some "Home feed (explicit)"⟩,
    ⟨"/explore", .allow, none, some "Explore page"⟩,
    ⟨"/explore/**", .allow, none, some "Explore subpages"⟩,
    ⟨"/search", .allow, none, some "Search"⟩,
    ⟨"/search/**", .allow, none, some "Search results"⟩,
    ⟨"/notifications", .allow, none, some "Notifications"⟩,
    ⟨"/notifications/**", .allow, none, some "Notification details"⟩,
    ⟨"/messages", .allow, none, some "DMs"⟩,
    ⟨"/messages/**", .allow, none, some "DM threads"⟩,
    ⟨"/i/**", .allow, none, some "Internal pages"⟩,
    ⟨"/settings/**", .allow, none, some "Settings"⟩,
    ⟨"/*/status/*", .allow, none, some "Individual tweets"⟩,
    ⟨"/*", .allow, none, some "User profiles"⟩],
   "blocked"⟩

/-- `REDDIT_RULES` from `config.ts`. -/
def REDDIT_RULES : PlatformRules :=
  ⟨["reddit.com", "www.reddit.com", "old.reddit.com", "new.reddit.com"],
   [⟨"/", .hard, some "blocked", some "Home feed"⟩,
    ⟨"/home", .hard, some "blocked", some "Home feed (explicit)"⟩,
    ⟨"/popular", .hard, some "blocked", some "Popular"⟩,
    ⟨"/popular/**", .hard, some "blocked", some "Popular subpages"⟩,
    ⟨"/all", .hard, some "blocked", some "r/all"⟩,
    ⟨"/r/all", .hard, some "blocked", some "r/all (explicit)"⟩,
    ⟨"/r/all/**", .hard, some "blocked", some "r/all subpages"⟩,
    ⟨"/r/popular", .hard, some "blocked", some "r/popular"⟩,
    ⟨"/r/popular/**", .hard, some "blocked", some "r/popular subpages"⟩,
    ⟨"/search", .allow, none, some "Search"⟩,
    ⟨"/search/**", .allow, none, some "Search results"⟩,
    ⟨"/r/*/comments/**", .allow, none, some "Post comments"⟩,
    ⟨"/r/*", .allow, none, some "Subreddits"⟩,
    ⟨"/r/**", .allow, none, some "Subreddit pages"⟩,
    ⟨"/user/*", .allow, none, some "User profiles"⟩,
    ⟨"/user/**", .allow, none, some "User pages"⟩,
    ⟨"/u/*", .allow, none, some "User profiles (short)"⟩,
    ⟨"/u/**", .allow, none, some "User pages (short)"⟩,
    ⟨"/message/**", .allow, none, some "Messages"⟩,
    ⟨"/settings/**", .allow, none, some "Settings"⟩],
   "blocked"⟩

/-- `YOUTUBE_RULES` from `config.ts`. -/
def YOUTUBE_RULES : PlatformRules :=
  ⟨["youtube.com", "www.youtube.com", "m.youtube.com"],
   [⟨"/", .soft, none, some "Home (soft block, show search)"⟩,
    ⟨"/shorts", .hard, some "/feed/subscriptions", some "Shorts tab"⟩,
    ⟨"/shorts/*", .hard, some "shorts-redirect", some "Individual short"⟩,
    ⟨"/feed/trending", .hard, some "/feed/subscriptions", some "Trending"⟩,
    ⟨"/feed/explore", .hard, some "/feed/subscriptions", some "Explore"⟩,
    ⟨"/feed/subscriptions", .allow, none, some "Subscriptions"⟩,
    ⟨"/feed/library", .allow, none, some "Library"⟩,
    ⟨"/feed/history", .allow, none, some "History"⟩,
    ⟨"/watch", .allow, none, some "Video player"⟩,
    ⟨"/results", .allow, none, some "Search results"⟩,
    ⟨"/@*", .allow, none, some "Channel pages"⟩,
    ⟨"/channel/**", .allow, none, some "Channel pages (old format)"⟩,
    ⟨"/c/**", .allow, none, some "Channel pages (custom URL)"⟩,
    ⟨"/playlist", .allow, none, some "Playlists"⟩,
    ⟨"/premium", .allow, none, some "Premium page"⟩,
    ⟨"/account/**", .allow, none, some "Account settings"⟩],
   "/feed/subscriptions"⟩

/-- `INSTAGRAM_RULES` from `config.ts`. -/
def INSTAGRAM_RULES : PlatformRules :=
  ⟨["instagram.com", "www.instagram.com"],
   [⟨"/", .hard, some "/direct/inbox/", some "Home feed"⟩,
    ⟨"/explore", .hard, some "/direct/inbox/", some "Explore"⟩,
    ⟨"/explore/**", .hard, some "/direct/inbox/", some "Explore pages"⟩,
    ⟨"/reels", .hard, some "/direct/inbox/", some "Reels tab"⟩,
    ⟨"/reels/**", .hard, some "/direct/inbox/", some "Individual reels"⟩,
    ⟨"/direct/inbox", .allow, none, some "DMs"⟩,
    ⟨"/direct/inbox/**", .allow, none, some "DM threads"⟩,
    ⟨"/direct/**", .allow, none, some "Direct messages"⟩,
    ⟨"/p/*", .allow, none, some "Individual posts"⟩,
    ⟨"/stories/**", .allow, none, some "Stories"⟩,
    ⟨"/accounts/**", .allow, none, some "Account settings"⟩,
    ⟨"/*", .allow, none, some "User profiles"⟩],
   "/direct/inbox/"⟩

/-- `FACEBOOK_RULES` from `config.ts`. -/
def FACEBOOK_RULES : PlatformRules :=
  ⟨["facebook.com", "www.facebook.com", "m.facebook.com"],
   [⟨"/", .soft, none, some "Home feed (soft block)"⟩,
    ⟨"/watch", .hard, some "/messages/", some "Watch"⟩,
    ⟨"/watch/**", .hard, some "/messages/", some "Watch videos"⟩,
    ⟨"/reels", .hard, some "/messages/", some "Reels"⟩,
    ⟨"/reels/**", .hard, some "/messages/", some "Individual reels"⟩,
    ⟨"/marketplace", .allow, none, some "Marketplace"⟩,
    ⟨"/marketplace/**", .allow, none, some "Marketplace pages"⟩,
    ⟨"/groups/**", .allow, none, some "Groups"⟩,
    ⟨"/messages", .allow, none, some "Messages"⟩,
    ⟨"/messages/**", .allow, none, some "Message threads"⟩,
    ⟨"/events", .allow, none, some "Events"⟩,
    ⟨"/events/**", .allow, none, some "Event pages"⟩,
    ⟨"/settings/**", .allow, none, some "Settings"⟩,
    ⟨"/*", .allow, none, some "User profiles and pages"⟩],
   "/messages/"⟩

/-- `LINKEDIN_RULES` from `config.ts`. -/
def LINKEDIN_RULES : PlatformRules :=
  ⟨["linkedin.com", "www.linkedin.com"],
   [⟨"/", .soft, some "/messaging/", some "Home feed (soft block)"⟩,
    ⟨"/feed", .soft, some "/messaging/", some "Feed (soft block)"⟩,
    ⟨"/feed/**", .soft, some "/messaging/", some "Feed pages"⟩,
    ⟨"/in/*", .allow, none, some "User profiles"⟩,
    ⟨"/messaging", .allow, none, some "Messages"⟩,
    ⟨"/messaging/**", .allow, none, some "Message threads"⟩,
    ⟨"/jobs", .allow, none, some "Jobs"⟩,
    ⟨"/jobs/**", .allow, none, some "Job listings"⟩,
    ⟨"/mynetwork", .allow, none, some "My Network"⟩,
    ⟨"/mynetwork/**", .allow, none, some "Network pages"⟩,
    ⟨"/company/**", .allow, none, some "Company pages"⟩,
    ⟨"/posts/**", .allow, none, some "Individual posts"⟩,
    ⟨"/settings/**", .allow, none, some "Settings"⟩],
   "/messaging/"⟩

/-- `TIKTOK_RULES` from `config.ts` (nuclear option). -/
def TIKTOK_RULES : PlatformRules :=
  ⟨["tiktok.com", "www.tiktok.com"],
   [⟨"/**", .hard, some "blocked", some "All pages blocked"⟩],
   "blocked"⟩

/-- `PLATFORM_RULES` from `config.ts`. -/
def PLATFORM_RULES : PlatformId → PlatformRules
  | .twitter => TWITTER_RULES
  | .reddit => REDDIT_RULES
  | .youtube => YOUTUBE_RULES
  | .instagram => INSTAGRAM_RULES
  | .facebook => FACEBOOK_RULES
  | .linkedin => LINKEDIN_RULES
  | .tiktok => TIKTOK_RULES

/-- The insertion order of the `PLATFORM_RULES` object literal, which is the
order `Object.entries` iterates in `getPlatformFromUrl`. -/
def PLATFORM_LIST : List PlatformId :=
  [.twitter, .reddit, .youtube, .instagram, .facebook, .linkedin, .tiktok]

/-! ## Default configuration (`src/shared/config.ts`) -/

def TWITTER_DEFAULT : PlatformConfig := ⟨true, [("home", true)], [], "blocked"⟩

def REDDIT_DEFAULT : PlatformConfig :=
  ⟨true, [("home", true), ("popular", true), ("all", true)], [], "blocked"⟩

def YOUTUBE_DEFAULT : PlatformConfig :=
  ⟨true, [("home", true), ("shorts", true), ("trending", true), ("explore", true)],
   [("recommendations", true), ("endCards", true), ("shortsInFeed", true)], "feed-block"⟩

def INSTAGRAM_DEFAULT : PlatformConfig :=
  ⟨true, [("home", true), ("explore", true), ("reels", true)], [], "/direct/inbox/"⟩

def FACEBOOK_DEFAULT : PlatformConfig :=
  ⟨false, [("watch", true), ("reels", true)],
   [("feed", true), ("stories", true), ("peopleYouMayKnow", true)], "/messages/"⟩

def LINKEDIN_DEFAULT : PlatformConfig :=
  ⟨false, [], [("feed", true), ("peopleYouMayKnow", true)], "feed-block"⟩

def TIKTOK_DEFAULT : PlatformConfig := ⟨true, [("all", true)], [], "blocked"⟩

/-- `DEFAULT_PLATFORMS` from `config.ts`. -/
def DEFAULT_PLATFORMS : PlatformId → PlatformConfig
  | .twitter => TWITTER_DEFAULT
  | .reddit => REDDIT_DEFAULT
  | .youtube => YOUTUBE_DEFAULT
  | .instagram => INSTAGRAM_DEFAULT
  | .facebook => FACEBOOK_DEFAULT
  | .linkedin => LINKEDIN_DEFAULT
  | .tiktok => TIKTOK_DEFAULT

/-- `DEFAULT_STORAGE` from `config.ts` (decision-engine-relevant fields). -/
def DEFAULT_STORAGE : StorageSchema := ⟨1, true, DEFAULT_PLATFORMS⟩

/-! ## Platform resolver (`getPlatformFromUrl` in `rules.ts`) -/

/-- One iteration of the host loop in `getPlatformFromUrl`: wildcard entries
`*.domain` match the domain itself or any subdomain, other entries require
exact equality. -/
def hostEntryMatches (hostname host : String) : Bool :=
  if jsStartsWith host "*." then
    let domain := (host.toList.drop 2).asString
    hostname == domain || jsEndsWith hostname ("." ++ domain)
  else hostname == host

/-- Whether `hostname` matches any host entry of platform `pid`. -/
def platformHostMatches (pid : PlatformId) (hostname : String) : Bool :=
  (PLATFORM_RULES pid).hosts.any (fun host => hostEntryMatches hostname host)

/-- `getPlatformFromUrl` from `rules.ts`. -/
def getPlatformFromUrl (url : String) : Option PlatformId :=
  match parseUrl url with
  | none => none
  | some parsed =>
    let hostname := jsToLower parsed.hostname
    PLATFORM_LIST.find? (fun pid => platformHostMatches pid hostname)

/-! ## Decision engine (`checkUrl` / `getBlockDecision` in `rules.ts`) -/

/-- An allow decision with no redirect, as built by the early-return branches
of `checkUrl` and `getBlockDecision`. -/
def allowDecision (reason : String) : BlockDecision :=
  ⟨false, .allow, none, some reason⟩

/-- JavaScript `a || b` on an optional string: `undefined` and `''` fall back
to `b` (used for `pattern.redirect || rules.defaultRedirect`). -/
def jsOrElse (a : Option String) (b : String) : String :=
  match a with
  | some s => if s = "" then b else s
  | none => b

/-- `checkUrl` from `rules.ts`: platform lookup, pathname extraction, then
first-match scan of the platform's pattern list. -/
def checkUrl (url : String) : BlockDecision :=
  match getPlatformFromUrl url with
  | none => allowDecision "Unknown platform"
  | some platformId =>
    let rules := PLATFORM_RULES platformId
    match parseUrl url with
    | none => allowDecision "Invalid URL"
    | some parsed =>
      match rules.patterns.find? (fun pat => matchPattern pat.pattern parsed.pathname) with
      | some pat =>
        let shouldBlock := pat.mode != .allow
        ⟨shouldBlock, pat.mode,
         if shouldBlock then some (jsOrElse pat.redirect rules.defaultRedirect) else none,
         pat.description⟩
      | none => allowDecision "No matching pattern"

/-- `getHardBlockSetting` from `rules.ts`: the hand-written second
classification from a pathname to a named hard-block surface. -/
def getHardBlockSetting (platformId : PlatformId) (pathname : String) : Option String :=
  let normalizedPath :=
    (fun t => if t.isEmpty then "/" else t.asString) (dropTrailingSlashes pathname.toList)
  match platformId with
  | .twitter =>
    if normalizedPath = "/" || normalizedPath = "/home" then some "home"
    else if jsStartsWith normalizedPath "/explore" then some "explore"
    else none
  | .reddit =>
    if normalizedPath = "/" || normalizedPath = "/home" then some "home"
    else if normalizedPath = "/popular" || jsStartsWith normalizedPath "/popular/" ||
            normalizedPath = "/r/popular" || jsStartsWith normalizedPath "/r/popular/" then
      some "popular"
    else if normalizedPath = "/all" || normalizedPath = "/r/all" ||
            jsStartsWith normalizedPath "/r/all/" then
      some "all"
    else none
  | .youtube =>
    if normalizedPath = "/" then some "home"
    else if normalizedPath = "/shorts" || jsStartsWith normalizedPath "/shorts/" then some "shorts"
    else if normalizedPath = "/feed/trending" then some "trending"
    else if normalizedPath = "/feed/explore" then some "explore"
    else none
  | .instagram =>
    if jsStartsWith normalizedPath "/explore" then some "explore"
    else if jsStartsWith normalizedPath "/reels" then some "reels"
    else none
  | .facebook =>
    if jsStartsWith normalizedPath "/watch" then some "watch"
    else if jsStartsWith normalizedPath "/reels" then some "reels"
    else none
  | .tiktok => some "all"
  | .linkedin => none

/-- `getBlockDecision` from `rules.ts`: global veto, platform veto, base
decision from `checkUrl`, then the hard-block re-enable pass. The loop
`for (pattern of rules.patterns) if (match && mode === 'hard') { ...; break }`
finds the first pattern that both matches and is `hard`, embedded as
`find?` with the conjoined predicate. -/
def getBlockDecision (url : String) (config : StorageSchema) : BlockDecision :=
  if !config.globalEnabled then allowDecision "Extension is globally disabled"
  else
    match getPlatformFromUrl url with
    | none => allowDecision "Unknown platform"
    | some platformId =>
      let platformConfig := config.platforms platformId
      if !platformConfig.enabled then allowDecision (platformId.idString ++ " is disabled")
      else
        let baseDecision := checkUrl url
        if !baseDecision.shouldBlock then baseDecision
        else
          let rules := PLATFORM_RULES platformId
          match parseUrl url with
          | none => baseDecision
          | some parsed =>
            match rules.patterns.find?
                (fun pat => matchPattern pat.pattern parsed.pathname && pat.mode == .hard) with
            | some _ =>
              -- `blockSetting` is always a nonempty literal or null in the
              -- source, so JS truthiness coincides with the `some` case.
              match getHardBlockSetting platformId parsed.pathname with
              | some blockSetting =>
                if (platformConfig.hardBlocks.lookup blockSetting) = some false then
                  allowDecision ("Hard block '" ++ blockSetting ++ "' is disabled")
                else baseDecision
              | none => baseDecision
            | none => baseDecision

/-! ## Redirect builder (`buildRedirectUrl` in `rules.ts`) -/

/-- Uppercase hex digit of a nibble. -/
def hexDigit (n : Nat) : Char :=
  if n < 10 then Char.ofNat (48 + n) else Char.ofNat (55 + n)

/-- Whether a byte stays literal under `application/x-www-form-urlencoded`
serialization: ASCII alphanumerics and `*`, `-`, `.`, `_`. -/
def formByteLiteral (b : Nat) : Bool :=
  (48 ≤ b && b ≤ 57) || (65 ≤ b && b ≤ 90) || (97 ≤ b && b ≤ 122) ||
    b = 42 || b = 45 || b = 46 || b = 95

/-- `application/x-www-form-urlencoded` serialization of one UTF-8 byte:
space becomes `+`, literal bytes stay, everything else becomes `%XX`. -/
def formEncodeByte (b : Nat) : List Char :=
  if b = 32 then ['+']
  else if formByteLiteral b then [Char.ofNat b]
  else ['%', hexDigit (b / 16), hexDigit (b % 16)]

/-- The UTF-8 bytes of one character (standard 1-4 byte encoding). -/
def charUtf8Bytes (c : Char) : List Nat :=
  let n := c.toNat
  if n < 0x80 then [n]
  else if n < 0x800 then [0xC0 + n / 64, 0x80 + n % 64]
  else if n < 0x10000 then [0xE0 + n / 4096, 0x80 + n / 64 % 64, 0x80 + n % 64]
  else [0xF0 + n / 262144, 0x80 + n / 4096 % 64, 0x80 + n / 64 % 64, 0x80 + n % 64]

/-- `new URLSearchParams({url: s}).toString()` without the `url=` key part:
form-urlencoded serialization of `s` over its UTF-8 bytes. -/
def formEncode (s : String) : String :=
  ((s.toList.flatMap charUtf8Bytes).flatMap formEncodeByte).asString

/-- `new URLSearchParams({url: originalUrl}).toString()`. -/
def urlParamsFor (originalUrl : String) : String :=
  "url=" ++ formEncode originalUrl

/-- The final `try { return url.origin + redirectTarget } catch { return
redirectTarget }` stage of `buildRedirectUrl`. -/
def relativeRedirect (originalUrl redirectTarget : String) : String :=
  match parseUrl originalUrl with
  | some u => u.origin ++ redirectTarget
  | none => redirectTarget

/-- `buildRedirectUrl` from `rules.ts`. The source's recursive call
`buildRedirectUrl(originalUrl, '/feed/subscriptions', extensionId)` always
lands in the final relative-redirect branch (the argument is neither
`'blocked'` nor `'shorts-redirect'`), so it is embedded as
`relativeRedirect originalUrl "/feed/subscriptions"`. -/
def buildRedirectUrl (originalUrl redirectTarget : String) (extensionId : Option String) : String :=
  if redirectTarget = "blocked" then
    -- `extensionId ? ... : ...` — JS truthiness: undefined and '' both fall
    -- back to the bare path.
    let extId := extensionId.getD ""
    let blockedPage :=
      if extId ≠ "" then "chrome-extension://" ++ extId ++ "/ui/blocked.html"
      else "/ui/blocked.html"
    blockedPage ++ "?" ++ urlParamsFor originalUrl
  else if redirectTarget = "shorts-redirect" then
    match parseUrl originalUrl with
    | some u =>
      let shortId := (jsSplit ((jsSplit u.pathname "/shorts/").getD 1 "") "/").headD ""
      if shortId ≠ "" then u.origin ++ "/watch?v=" ++ shortId
      else relativeRedirect originalUrl "/feed/subscriptions"
    | none => relativeRedirect originalUrl "/feed/subscriptions"
  else relativeRedirect originalUrl redirectTarget

/-! ## Configurations used by concrete scenarios -/

/-- `DEFAULT_STORAGE` with the global toggle off. -/
def GLOBAL_OFF_STORAGE : StorageSchema := ⟨1, false, DEFAULT_PLATFORMS⟩

/-- `DEFAULT_STORAGE` with the Twitter platform disabled. -/
def TWITTER_OFF_STORAGE : StorageSchema :=
  ⟨1, true, fun pid =>
    match pid with
    | .twitter => ⟨false, [("home", true)], [], "blocked"⟩
    | p => DEFAULT_PLATFORMS p⟩

/-- `DEFAULT_STORAGE` with the Twitter `home` hard-block surface re-enabled
(`hardBlocks: { home: false }`, as in the repository's unit test). -/
def TWITTER_HOME_OFF : StorageSchema :=
  ⟨1, true, fun pid =>
    match pid with
    | .twitter => ⟨true, [("home", false)], [], "blocked"⟩
    | p => DEFAULT_PLATFORMS p⟩

/-! ## C1 -/

/-- C1: configuration veto. If `cfg.globalEnabled` is false, `getBlockDecision`
returns `shouldBlock = false` with mode `allow` for every url; likewise, if the
url resolves to a platform whose config has `enabled = false`, the result is
`shouldBlock = false` with mode `allow`, regardless of the rule table. -/
theorem configuration_veto (url : String) (cfg : StorageSchema) :
    (cfg.globalEnabled = false →
      (getBlockDecision url cfg).shouldBlock = false ∧
      (getBlockDecision url cfg).mode = BlockMode.allow) ∧
    (∀ pid, getPlatformFromUrl url = some pid → (cfg.platforms pid).enabled = false →
      (getBlockDecision url cfg).shouldBlock = false ∧
      (getBlockDecision url cfg).mode = BlockMode.allow) := by
  constructor
  · intro h
    simp [getBlockDecision, h, allowDecision]
  · intro pid hpid hen
    cases hg : cfg.globalEnabled
    · simp [getBlockDecision, hg, allowDecision]
    · simp [getBlockDecision, hg, hpid, hen, allowDecision]

/-- Witness for C1: concrete vetoed decisions on the Twitter home feed. -/
theorem configuration_veto_witness :
    (getBlockDecision "https://twitter.com/" GLOBAL_OFF_STORAGE).shouldBlock = false ∧
    (getBlockDecision "https://twitter.com/" TWITTER_OFF_STORAGE).shouldBlock = false :=
  ⟨((configuration_veto "https://twitter.com/" GLOBAL_OFF_STORAGE).1 rfl).1,
   ((configuration_veto "https://twitter.com/" TWITTER_OFF_STORAGE).2 PlatformId.twitter
      (by decide) rfl).1⟩

/-! ## C5 -/

/-- C5: YouTube shorts scenario. Under the default configuration,
`getBlockDecision` blocks `https://youtube.com/shorts/abc123` with redirect
token `shorts-redirect`, and `buildRedirectUrl` resolves that token to a
`/watch?v=` URL on the same origin with the extracted video id. -/
theorem youtube_shorts_scenario :
    (getBlockDecision "https://youtube.com/shorts/abc123" DEFAULT_STORAGE).shouldBlock = true ∧
    (getBlockDecision "https://youtube.com/shorts/abc123" DEFAULT_STORAGE).redirectUrl =
      some "shorts-redirect" ∧
    buildRedirectUrl "https://youtube.com/shorts/abc123" "shorts-redirect" none =
      "https://youtube.com/watch?v=abc123" := by
  refine ⟨by decide, by decide, by decide⟩

/-! ## C9 -/

/-- C9: platform resolver totality and examples. `getPlatformFromUrl` is a
total function (the embedding returns `none` — never an exception — exactly
where `new URL` would throw), it returns `none` for every string that fails
to parse as a URL, `www.x.com` resolves to the Twitter platform, and
`example.com` resolves to no platform. -/
theorem platform_resolver_total_and_examples :
    (∀ url, parseUrl url = none → getPlatformFromUrl url = none) ∧
    getPlatformFromUrl "https://www.x.com/home" = some PlatformId.twitter ∧
    getPlatformFromUrl "https://example.com/" = none := by
  refine ⟨?_, by decide, by decide⟩
  intro url h
  simp [getPlatformFromUrl, h]

/-- Witness for C9: the resolver on a concrete unparseable input. -/
theorem platform_resolver_total_witness :
    getPlatformFromUrl "not a url" = none :=
  platform_resolver_total_and_examples.1 "not a url" (by decide)

/-! ## C7 -/

/-- The `**`-terminal case of `matchSegments`: a pattern whose segments are a
non-wildcard `fixed` prefix followed by a final `**` matches `fixed ++ rest`
for every `rest`, including `rest = []`. -/
theorem matchSegments_terminal_wildcard (fixed rest : List String)
    (hfix : ∀ s ∈ fixed, s ≠ "*" ∧ s ≠ "**") :
    matchSegments (fixed ++ ["**"]) (fixed ++ rest) = true := by
  induction fixed with
  | nil => simp [matchSegments]
  | cons a f ih =>
    have ha := hfix a (List.mem_cons_self a f)
    have ih2 := ih (fun s hs => hfix s (List.mem_cons_of_mem a hs))
    simp [matchSegments, ha.1, ha.2, ih2]

/-- C7: terminal multi-segment wildcard. For every pattern `p` whose segment
list is a fixed non-wildcard prefix followed by a final `**` (nothing after
it), and every path `q` whose segments start with that fixed prefix,
`matchPattern p q` is true — including when `q`'s segments are exactly the
prefix. -/
theorem terminal_double_wildcard (p q : String) (fixed rest : List String)
    (hp : patternSegments p = fixed ++ ["**"])
    (hfix : ∀ s ∈ fixed, s ≠ "*" ∧ s ≠ "**")
    (hq : pathSegments q = fixed ++ rest) :
    matchPattern p q = true := by
  have hm := matchSegments_terminal_wildcard fixed rest hfix
  simp [matchPattern, hp, hq, hm]

/-- Witness for C7: `/explore/**` against `/explore` (exact prefix) and
against `/explore/tabs/x`. -/
theorem terminal_double_wildcard_witness :
    matchPattern "/explore/**" "/explore" = true ∧
    matchPattern "/explore/**" "/explore/tabs/x" = true :=
  ⟨terminal_double_wildcard "/explore/**" "/explore" ["explore"] []
      (by decide) (by decide) (by decide),
   terminal_double_wildcard "/explore/**" "/explore/tabs/x" ["explore"] ["tabs", "x"]
      (by decide) (by decide) (by decide)⟩

/-! ## C6 -/

/-- The redirect invariant of a decision: mode `allow` carries no redirect,
and a redirect is present exactly when the decision blocks. -/
def RedirectInv (d : BlockDecision) : Prop :=
  (d.mode = BlockMode.allow → d.redirectUrl = none) ∧
  (d.shouldBlock = true ↔ d.redirectUrl ≠ none)

theorem redirectInv_allowDecision (r : String) : RedirectInv (allowDecision r) := by
  simp [RedirectInv, allowDecision]

theorem checkUrl_redirectInv (url : String) : RedirectInv (checkUrl url) := by
  cases hp : getPlatformFromUrl url with
  | none => simp [checkUrl, hp, RedirectInv, allowDecision]
  | some pid =>
    cases hu : parseUrl url with
    | none => simp [checkUrl, hp, hu, RedirectInv, allowDecision]
    | some parsed =>
      cases hf : (PLATFORM_RULES pid).patterns.find?
          (fun pat => matchPattern pat.pattern parsed.pathname) with
      | none => simp [checkUrl, hp, hu, hf, RedirectInv, allowDecision]
      | some pat =>
        cases hm : pat.mode <;> simp [checkUrl, hp, hu, hf, hm, RedirectInv]

theorem getBlockDecision_redirectInv (url : String) (cfg : StorageSchema) :
    RedirectInv (getBlockDecision url cfg) := by
  have hc := checkUrl_redirectInv url
  simp only [getBlockDecision]
  split
  · exact redirectInv_allowDecision _
  · split
    · exact redirectInv_allowDecision _
    · split
      · exact redirectInv_allowDecision _
      · split
        · exact hc
        · split
          · exact hc
          · split
            · split
              · split
                · exact redirectInv_allowDecision _
                · exact hc
              · exact hc
            · exact hc

/-- C6: allow carries no redirect. For every url and configuration, a
decision of `checkUrl` or `getBlockDecision` with mode `allow` has no
`redirectUrl`, and a `redirectUrl` is present exactly when the decision
blocks (`shouldBlock = true`). -/
theorem allow_carries_no_redirect (url : String) (cfg : StorageSchema) :
    ((checkUrl url).mode = BlockMode.allow → (checkUrl url).redirectUrl = none) ∧
    ((checkUrl url).shouldBlock = true ↔ (checkUrl url).redirectUrl ≠ none) ∧
    ((getBlockDecision url cfg).mode = BlockMode.allow →
      (getBlockDecision url cfg).redirectUrl = none) ∧
    ((getBlockDecision url cfg).shouldBlock = true ↔
      (getBlockDecision url cfg).redirectUrl ≠ none) := by
  obtain ⟨h1, h2⟩ := checkUrl_redirectInv url
  obtain ⟨h3, h4⟩ := getBlockDecision_redirectInv url cfg
  exact ⟨h1, h2, h3, h4⟩

/-- Witness for C6: an allowed url carries no redirect; a blocked one does. -/
theorem allow_carries_no_redirect_witness :
    (checkUrl "https://example.com/").redirectUrl = none ∧
    (getBlockDecision "https://twitter.com/" DEFAULT_STORAGE).redirectUrl ≠ none :=
  ⟨(allow_carries_no_redirect "https://example.com/" DEFAULT_STORAGE).1 (by decide),
   ((allow_carries_no_redirect "https://twitter.com/" DEFAULT_STORAGE).2.2.2).mp (by decide)⟩

/-! ## C4 -/

/-- Counterexample for C4: for the computed-redirect sentinel
`shorts-redirect`, a parse failure of `originalUrl` does not return the
token itself — it returns the secondary fallback `/feed/subscriptions`. -/
theorem redirect_fallback_counterexample :
    parseUrl "not a url" = none ∧
    buildRedirectUrl "not a url" "shorts-redirect" none = "/feed/subscriptions" ∧
    "/feed/subscriptions" ≠ "shorts-redirect" := by
  refine ⟨by decide, by decide, by decide⟩

/-- C4 (amended): `buildRedirectUrl` is total (the embedding returns a string
on every input; no error case exists), and when `originalUrl` fails to
parse: for every token other than the two sentinels the token itself is
returned unmodified; for the `shorts-redirect` sentinel the secondary
fallback token `/feed/subscriptions` is returned unmodified; and for the
`blocked` sentinel `originalUrl` is never parsed — the blocked-page URL is
returned with the original url form-encoded as a query parameter. -/
theorem redirect_builder_fallback (originalUrl redirectTarget : String)
    (extensionId : Option String) (hfail : parseUrl originalUrl = none) :
    (redirectTarget ≠ "blocked" → redirectTarget ≠ "shorts-redirect" →
      buildRedirectUrl originalUrl redirectTarget extensionId = redirectTarget) ∧
    buildRedirectUrl originalUrl "shorts-redirect" extensionId = "/feed/subscriptions" ∧
    buildRedirectUrl originalUrl "blocked" extensionId =
      (if extensionId.getD "" ≠ "" then
        "chrome-extension://" ++ extensionId.getD "" ++ "/ui/blocked.html"
       else "/ui/blocked.html") ++ "?" ++ urlParamsFor originalUrl := by
  refine ⟨?_, ?_, ?_⟩
  · intro h1 h2
    simp [buildRedirectUrl, h1, h2, relativeRedirect, hfail]
  · simp [buildRedirectUrl, relativeRedirect, hfail]
  · simp [buildRedirectUrl]

/-- Witness for C4: fallbacks at a concrete unparseable original url. -/
theorem redirect_builder_fallback_witness :
    buildRedirectUrl "not a url" "/messages/" none = "/messages/" ∧
    buildRedirectUrl "not a url" "shorts-redirect" none = "/feed/subscriptions" :=
  ⟨(redirect_builder_fallback "not a url" "/messages/" none (by decide)).1
      (by decide) (by decide),
   (redirect_builder_fallback "not a url" "/messages/" none (by decide)).2.1⟩

/-! ## C2 -/

/-- `find?` returns the marked element when everything before it fails the
predicate and it satisfies it. -/
theorem find?_append_first {α : Type} (f : α → Bool) (pre post : List α) (a : α)
    (hpre : ∀ x ∈ pre, f x = false) (ha : f a = true) :
    (pre ++ a :: post).find? f = some a := by
  induction pre with
  | nil => simp [List.find?_cons, ha]
  | cons b bs ih =>
    have hb := hpre b (List.mem_cons_self b bs)
    have ih2 := ih (fun x hx => hpre x (List.mem_cons_of_mem b hx))
    simp [List.find?_cons, hb, ih2]

/-- Counterexample for C2 as literally stated: in the Reddit pattern list,
pattern A = `/r/*/comments/**` (index 11, mode `allow`) precedes pattern
B = `/r/**` (index 13, mode `allow`), both match `/r/all/comments/x/y` —
yet the decision for that path has mode `hard` (from the even earlier match
`/r/all/**` at index 6), not A's mode. -/
theorem first_match_priority_counterexample :
    REDDIT_RULES.patterns[11]? =
      some ⟨"/r/*/comments/**", BlockMode.allow, none, some "Post comments"⟩ ∧
    REDDIT_RULES.patterns[13]? =
      some ⟨"/r/**", BlockMode.allow, none, some "Subreddit pages"⟩ ∧
    matchPattern "/r/*/comments/**" "/r/all/comments/x/y" = true ∧
    matchPattern "/r/**" "/r/all/comments/x/y" = true ∧
    (checkUrl "https://reddit.com/r/all/comments/x/y").mode = BlockMode.hard ∧
    (checkUrl "https://reddit.com/r/all/comments/x/y").mode ≠ BlockMode.allow := by
  refine ⟨by decide, by decide, by decide, by decide, by decide, by decide⟩

/-- C2 (amended): strict first-match priority. If a platform's pattern list
splits as `pre ++ A :: post` where no pattern of `pre` matches the url's
pathname and `A` matches it, then the engine's decision is built from `A` —
its mode and its redirect (falling back to the platform default) — so any
later matching pattern `B ∈ post` is never the one reflected. -/
theorem first_match_priority (url : String) (pid : PlatformId) (parsed : ParsedUrl)
    (pre post : List UrlPattern) (A : UrlPattern)
    (hpid : getPlatformFromUrl url = some pid)
    (hparse : parseUrl url = some parsed)
    (hsplit : (PLATFORM_RULES pid).patterns = pre ++ A :: post)
    (hpre : ∀ p ∈ pre, matchPattern p.pattern parsed.pathname = false)
    (hA : matchPattern A.pattern parsed.pathname = true) :
    (checkUrl url).mode = A.mode ∧
    (checkUrl url).redirectUrl =
      (if A.mode = BlockMode.allow then none
       else some (jsOrElse A.redirect (PLATFORM_RULES pid).defaultRedirect)) := by
  have hfind : (PLATFORM_RULES pid).patterns.find?
      (fun pat => matchPattern pat.pattern parsed.pathname) = some A := by
    rw [hsplit]
    exact find?_append_first _ pre post A hpre hA
  cases hm : A.mode <;> simp [checkUrl, hpid, hparse, hfind, hm]

/-- Witness for C2's amended theorem: on `/r/all/comments/x/y` the first
match is `/r/all/**` (hard, redirect `blocked`); the later matching allow
patterns are ignored. -/
theorem first_match_priority_witness :
    (checkUrl "https://reddit.com/r/all/comments/x/y").mode = BlockMode.hard ∧
    (checkUrl "https://reddit.com/r/all/comments/x/y").redirectUrl = some "blocked" := by
  have h := first_match_priority "https://reddit.com/r/all/comments/x/y" PlatformId.reddit
    ⟨"https", "reddit.com", "", "/r/all/comments/x/y", ""⟩
    [⟨"/", .hard, some "blocked", some "Home feed"⟩,
     ⟨"/home", .hard, some "blocked", some "Home feed (explicit)"⟩,
     ⟨"/popular", .hard, some "blocked", some "Popular"⟩,
     ⟨"/popular/**", .hard, some "blocked", some "Popular subpages"⟩,
     ⟨"/all", .hard, some "blocked", some "r/all"⟩,
     ⟨"/r/all", .hard, some "blocked", some "r/all (explicit)"⟩]
    [⟨"/r/popular", .hard, some "blocked", some "r/popular"⟩,
     ⟨"/r/popular/**", .hard, some "blocked", some "r/popular subpages"⟩,
     ⟨"/search", .allow, none, some "Search"⟩,
     ⟨"/search/**", .allow, none, some "Search results"⟩,
     ⟨"/r/*/comments/**", .allow, none, some "Post comments"⟩,
     ⟨"/r/*", .allow, none, some "Subreddits"⟩,
     ⟨"/r/**", .allow, none, some "Subreddit pages"⟩,
     ⟨"/user/*", .allow, none, some "User profiles"⟩,
     ⟨"/user/**", .allow, none, some "User pages"⟩,
     ⟨"/u/*", .allow, none, some "User profiles (short)"⟩,
     ⟨"/u/**", .allow, none, some "User pages (short)"⟩,
     ⟨"/message/**", .allow, none, some "Messages"⟩,
     ⟨"/settings/**", .allow, none, some "Settings"⟩]
    ⟨"/r/all/**", .hard, some "blocked", some "r/all subpages"⟩
    (by decide) (by decide) (by decide) (by decide) (by decide)
  refine ⟨h.1, ?_⟩
  rw [h.2]
  decide

/-! ## C3 -/

/-- If the first matching pattern has mode `hard`, it is also the first
pattern that both matches and is `hard` (the predicate of the re-enable
loop in `getBlockDecision`). -/
theorem find?_hard_agrees (l : List UrlPattern) (path : String) (pat : UrlPattern)
    (h : l.find? (fun p => matchPattern p.pattern path) = some pat)
    (hm : pat.mode = BlockMode.hard) :
    l.find? (fun p => matchPattern p.pattern path && p.mode == BlockMode.hard) = some pat := by
  induction l with
  | nil => simp at h
  | cons q qs ih =>
    cases hq : matchPattern q.pattern path
    · simp only [List.find?_cons, hq, Bool.false_and] at h ⊢
      exact ih h
    · simp only [List.find?_cons, hq, Bool.true_and] at h ⊢
      obtain rfl : q = pat := by simpa using h
      simp [hm]

/-- C3: hard-block surface re-enable. When the engine would block a url with
mode `hard` (under an enabled global and platform config), and the
per-platform second classification maps the normalized pathname to a named
surface `s` whose entry in `hardBlocks` is exactly `false`, the final
decision is overridden to allow. -/
theorem hard_block_surface_reenable (url : String) (cfg : StorageSchema)
    (pid : PlatformId) (parsed : ParsedUrl) (s : String)
    (hg : cfg.globalEnabled = true)
    (hpid : getPlatformFromUrl url = some pid)
    (hen : (cfg.platforms pid).enabled = true)
    (hparse : parseUrl url = some parsed)
    (hblock : (checkUrl url).shouldBlock = true)
    (hmode : (checkUrl url).mode = BlockMode.hard)
    (hsurf : getHardBlockSetting pid parsed.pathname = some s)
    (hoff : ((cfg.platforms pid).hardBlocks.lookup s) = some false) :
    (getBlockDecision url cfg).shouldBlock = false ∧
    (getBlockDecision url cfg).mode = BlockMode.allow := by
  have hfind : ∃ pat, (PLATFORM_RULES pid).patterns.find?
      (fun p => matchPattern p.pattern parsed.pathname) = some pat ∧
      pat.mode = BlockMode.hard := by
    revert hblock hmode
    cases hf : (PLATFORM_RULES pid).patterns.find?
        (fun p => matchPattern p.pattern parsed.pathname) with
    | none => simp [checkUrl, hpid, hparse, hf, allowDecision]
    | some pat =>
      intro _ hmode
      refine ⟨pat, rfl, ?_⟩
      simpa [checkUrl, hpid, hparse, hf] using hmode
  obtain ⟨pat, hf, hpm⟩ := hfind
  have hhard := find?_hard_agrees _ _ _ hf hpm
  simp [getBlockDecision, hg, hpid, hen, hparse, hblock, hhard, hsurf, hoff, allowDecision]

/-- Witness for C3: the repository unit-test scenario — Twitter with
`hardBlocks.home = false` no longer blocks the home feed. -/
theorem hard_block_surface_reenable_witness :
    (getBlockDecision "https://twitter.com/" TWITTER_HOME_OFF).shouldBlock = false ∧
    (getBlockDecision "https://twitter.com/" TWITTER_HOME_OFF).mode = BlockMode.allow :=
  hard_block_surface_reenable "https://twitter.com/" TWITTER_HOME_OFF PlatformId.twitter
    ⟨"https", "twitter.com", "", "/", ""⟩ "home"
    rfl (by decide) rfl (by decide) (by decide) (by decide) (by decide) (by decide)

/-! ## C8 -/

theorem takeWhile_all_list {α : Type} (p : α → Bool) (l : List α)
    (h : ∀ x ∈ l, p x = true) : l.takeWhile p = l := by
  induction l with
  | nil => rfl
  | cons a as ih =>
    have ha := h a (List.mem_cons_self a as)
    simp [List.takeWhile_cons, ha, ih (fun x hx => h x (List.mem_cons_of_mem a hx))]

theorem takeWhile_append_stuck {α : Type} (p : α → Bool) (l₁ l₂ : List α)
    (h : ¬ ∀ x ∈ l₁, p x = true) :
    (l₁ ++ l₂).takeWhile p = l₁.takeWhile p := by
  induction l₁ with
  | nil => exact absurd (by simp) h
  | cons a as ih =>
    cases ha : p a
    · simp [List.takeWhile_cons, ha]
    · have h2 : ¬ ∀ x ∈ as, p x = true := by
        intro hall
        apply h
        intro x hx
        rcases List.mem_cons.mp hx with rfl | hx2
        · exact ha
        · exact hall x hx2
      simp [List.takeWhile_cons, ha, ih h2]

theorem dropTrailingSlashes_append_slash (cs : List Char) :
    dropTrailingSlashes (cs ++ ['/']) = dropTrailingSlashes cs := by
  simp [dropTrailingSlashes, List.dropWhile]

/-- The path normalization of `matchPattern` erases a trailing slash: the
appended `'/'` is either consumed by the trailing-slash strip (no query in
the path) or discarded with the query string. -/
theorem normalizePathChars_append_slash (cs : List Char) :
    normalizePathChars (cs ++ ['/']) = normalizePathChars cs := by
  by_cases hall : ∀ c ∈ cs, (c != '?') = true
  · have h1 : stripQuery (cs ++ ['/']) = cs ++ ['/'] := by
      apply takeWhile_all_list
      intro c hc
      rcases List.mem_append.mp hc with h | h
      · exact hall c h
      · simp only [List.mem_singleton] at h
        subst h
        decide
    have h2 : stripQuery cs = cs := takeWhile_all_list _ cs hall
    unfold normalizePathChars
    rw [h1, h2, dropTrailingSlashes_append_slash]
  · have h1 : stripQuery (cs ++ ['/']) = stripQuery cs :=
      takeWhile_append_stuck _ cs ['/'] hall
    unfold normalizePathChars
    rw [h1]

theorem string_toList_append (s t : String) : (s ++ t).toList = s.toList ++ t.toList := by
  rcases s with ⟨a⟩
  rcases t with ⟨b⟩
  rfl

/-- C8: trailing-slash invariance of the pattern matcher. For every pattern
`p` and non-root path `q`, `matchPattern p (q ++ "/") = matchPattern p q`. -/
theorem trailing_slash_invariance (p q : String) (_hq : q ≠ "/") :
    matchPattern p (q ++ "/") = matchPattern p q := by
  have hseg : pathSegments (q ++ "/") = pathSegments q := by
    unfold pathSegments
    rw [string_toList_append]
    have hs : ("/" : String).toList = ['/'] := rfl
    rw [hs, normalizePathChars_append_slash]
  simp only [matchPattern]
  rw [hseg]

/-- Witness for C8: the invariance applied at `/home`. -/
theorem trailing_slash_invariance_witness :
    matchPattern "/home" ("/home" ++ "/") = matchPattern "/home" "/home" :=
  trailing_slash_invariance "/home" "/home" (by decide)

/-! ## C10 -/

/-- A non-wildcard host entry matches only by exact equality. -/
theorem hostEntryMatches_exact (hostname host : String)
    (hw : jsStartsWith host "*." = false)
    (h : hostEntryMatches hostname host = true) : hostname = host := by
  simp [hostEntryMatches, hw] at h
  exact h

/-- No host entry in the static table uses the `*.` wildcard form. -/
theorem hosts_no_wildcard :
    ∀ pid : PlatformId, ∀ host ∈ (PLATFORM_RULES pid).hosts,
      jsStartsWith host "*." = false := by
  decide

/-- The host lists of distinct platforms share no entry. -/
theorem hosts_cross_disjoint :
    ∀ p₁ p₂ : PlatformId, ∀ x ∈ (PLATFORM_RULES p₁).hosts,
      x ∈ (PLATFORM_RULES p₂).hosts → p₁ = p₂ := by
  decide

/-- C10: host tables are pairwise disjoint in practice. For every hostname,
at most one platform's host entries in the static `PLATFORM_RULES` table
match it under the exact/wildcard-subdomain rule, so the platform found by
`getPlatformFromUrl` is independent of the iteration order over platforms. -/
theorem host_tables_pairwise_disjoint (hostname : String) (p₁ p₂ : PlatformId)
    (h₁ : platformHostMatches p₁ hostname = true)
    (h₂ : platformHostMatches p₂ hostname = true) :
    p₁ = p₂ := by
  unfold platformHostMatches at h₁ h₂
  rw [List.any_eq_true] at h₁ h₂
  obtain ⟨a, ha, hma⟩ := h₁
  obtain ⟨b, hb, hmb⟩ := h₂
  have ea := hostEntryMatches_exact hostname a (hosts_no_wildcard p₁ a ha) hma
  have eb := hostEntryMatches_exact hostname b (hosts_no_wildcard p₂ b hb) hmb
  apply hosts_cross_disjoint p₁ p₂ a ha
  rw [← ea, eb]
  exact hb

/-- Witness for C10: `x.com` matches the Twitter host table. -/
theorem host_tables_pairwise_disjoint_witness :
    platformHostMatches PlatformId.twitter "x.com" = true ∧
    PlatformId.twitter = PlatformId.twitter :=
  ⟨by decide,
   host_tables_pairwise_disjoint "x.com" PlatformId.twitter PlatformId.twitter
     (by decide) (by decide)⟩
